import Mathlib

/-!
Shallow embedding of the handover REST service, in its two variants:
the SQLite-backed server (src/server.js, namespace `Sq`) and the
PostgreSQL-backed server (src/unnamed/part_000, namespace `Pg`).

Tables become lists of records; each SQL statement becomes a pure
function over a `Store`.  A store-layer statement can fail at runtime
(driver error); that possibility is injected explicitly as a Boolean
argument per statement (`true` = the statement fails), so the error
branches of the handlers are part of the model.  Timestamps and the
randomly generated session token are inputs to each handler.
-/

/-- Row of the `users` table. -/
structure User where
  username : String
  passwordHash : String
  role : String
  name : String
  createdAt : Nat
deriving DecidableEq

/-- Row of the `sessions` table. -/
structure Session where
  sessionId : String
  username : String
  role : String
  name : String
  loginTime : Nat
deriving DecidableEq

/-- Row of the `handovers` table; `data` is the stored JSON text. -/
structure Handover where
  id : String
  data : String
  lastUpdated : Nat
deriving DecidableEq

/-- The whole relational store (both servers have the same three tables). -/
structure Store where
  users : List User
  sessions : List Session
  handovers : List Handover
deriving DecidableEq

/-- bcrypt is an external library.  It is modelled as an idealized salted
hash: `bhash` is injective and `bverify p h` holds exactly when `h` is the
hash of `p` (bcrypt.hashSync / bcrypt.compareSync). -/
def bhash (p : String) : String := "bcrypt$" ++ p

/-- bcrypt.compareSync, against the idealized `bhash`. -/
def bverify (p h : String) : Bool := h == bhash p

/-- JSON.stringify on an already-parsed request body.  Payloads are treated
as uninterpreted text (the spec declares handover payloads opaque), so
serialization is modelled as an injective encoding with a decidable image:
`jparse` inverts `jstringify` and rejects strings outside the image, which
is exactly the case in which JSON.parse throws. -/
def jstringify (p : String) : String := "J" ++ p

/-- JSON.parse of a stored `data` column; `none` models a thrown exception. -/
def jparse (s : String) : Option String :=
  match s.data with
  | [] => none
  | c :: cs => if c = 'J' then some (String.mk cs) else none

/-- SELECT * FROM users WHERE username = ? -/
def findUserByUsername (st : Store) (u : String) : Option User :=
  st.users.find? (fun x => x.username == u)

/-- Does a user row with this username exist? -/
def userExists (st : Store) (u : String) : Bool :=
  (findUserByUsername st u).isSome

/-- SELECT * FROM sessions WHERE session_id = ?; an absent (`none`) bind
parameter matches no row. -/
def findSessionById (st : Store) (tok : Option String) : Option Session :=
  match tok with
  | none => none
  | some t => st.sessions.find? (fun s => s.sessionId == t)

/-- Does a session row with this session_id exist? -/
def sessionIdExists (st : Store) (t : String) : Bool :=
  st.sessions.any (fun s => s.sessionId == t)

/-- SELECT * FROM handovers WHERE id = ? -/
def findHandoverById (st : Store) (id : String) : Option Handover :=
  st.handovers.find? (fun h => h.id == id)

/-- INSERT INTO users (append; the callers check the primary key first). -/
def insertUser (st : Store) (u : User) : Store :=
  Store.mk (st.users ++ [u]) st.sessions st.handovers

/-- INSERT INTO sessions. -/
def insertSession (st : Store) (s : Session) : Store :=
  Store.mk st.users (st.sessions ++ [s]) st.handovers

/-- DELETE FROM sessions WHERE session_id = ?; an absent parameter deletes
nothing. -/
def deleteSessionById (st : Store) (tok : Option String) : Store :=
  Store.mk st.users
    (match tok with
     | none => st.sessions
     | some t => st.sessions.filter (fun s => !(s.sessionId == t)))
    st.handovers

/-- DELETE FROM sessions WHERE username = ? -/
def deleteSessionsByUsername (st : Store) (u : String) : Store :=
  Store.mk st.users (st.sessions.filter (fun s => !(s.username == u))) st.handovers

/-- DELETE FROM users WHERE username = ? -/
def deleteUserByUsername (st : Store) (u : String) : Store :=
  Store.mk (st.users.filter (fun x => !(x.username == u))) st.sessions st.handovers

/-- Upsert into handovers (INSERT OR REPLACE / ON CONFLICT DO UPDATE). -/
def upsertHandover (st : Store) (id data : String) (now : Nat) : Store :=
  Store.mk st.users st.sessions
    (st.handovers.filter (fun h => !(h.id == id)) ++ [Handover.mk id data now])

/-- A JSON response body, as the handlers produce them. -/
inductive Body where
  | err (msg : String)
  | loginOk (sessionId username role name : String)
  | sessionView (username role name : String) (loginTime : Nat)
  | ok
  | userList (rows : List (String × String × String × Nat))
  | doc (payload : String)
  | docList (rows : List (String × Nat))
deriving DecidableEq

/-- An HTTP response: status code plus JSON body. -/
structure Response where
  status : Nat
  body : Body
deriving DecidableEq

/-- What a handler invocation does observably: a response, or an uncaught
exception escaping the handler. -/
inductive Outcome where
  | resp (r : Response)
  | thrown
deriving DecidableEq

/-- Result of the authentication middleware: short-circuit with a response,
or proceed with the resolved identity attached to the request. -/
inductive AuthResult where
  | fail (r : Response)
  | ok (username role name : String)
deriving DecidableEq

/-- The extracted token is falsy in JS (undefined or empty string). -/
def isBlankTok : Option String → Bool
  | none => true
  | some s => s == ""

/-- role || 'user' — the role field defaults when absent or falsy. -/
def effRole : Option String → String
  | none => "user"
  | some r => if r == "" then "user" else r

/-- An API request, with the token already extracted from header/body.
The login constructor carries the credentials as present strings — the
login request whose password field is absent (on which the SQLite server
throws uncaught) is modelled separately by `Sq.loginRoute` and
`Pg.loginRoute`, which take both fields as Option String and agree with
this constructor's handlers when the fields are present. -/
inductive Request where
  | login (username password : String)
  | logout (tok : Option String)
  | validate (tok : Option String)
  | listUsers (tok : Option String)
  | createUser (tok : Option String) (username password name role : Option String)
  | deleteUser (tok : Option String) (username : String)
  | getHandover (tok : Option String) (id : String)
  | putHandover (tok : Option String) (id : String) (payload : String)
  | listHandovers (tok : Option String)
deriving DecidableEq

/-- Store-failure injection for one request: `eAuth` fails the middleware
session lookup, `e1` the first store statement of the handler body, `e2`
the second. -/
structure ErrFlags where
  eAuth : Bool
  e1 : Bool
  e2 : Bool
deriving DecidableEq

/-- No store statement fails. -/
def noErr : ErrFlags := ErrFlags.mk false false false

namespace Sq

/-- POST /api/auth/login (src/server.js:52-82) given both credential
fields present as strings.  `e1` fails the user lookup — note the source
folds that error into the invalid-credentials branch (`if (err || !user)`);
`e2` fails the session INSERT, which also fails on a duplicate session_id
primary key.  The absent-password request, on which bcrypt.compareSync at
src/server.js:60 throws uncaught, is modelled by `Sq.loginRoute`, whose
present-fields case coincides with this function. -/
def login (e1 e2 : Bool) (st : Store) (username password freshId : String)
    (now : Nat) : Response × Store :=
  if e1 then (Response.mk 401 (Body.err "Invalid username or password"), st)
  else
    match findUserByUsername st username with
    | none => (Response.mk 401 (Body.err "Invalid username or password"), st)
    | some user =>
      if bverify password user.passwordHash then
        if e2 || sessionIdExists st freshId then
          (Response.mk 500 (Body.err "Session creation failed"), st)
        else
          (Response.mk 200 (Body.loginOk freshId user.username user.role user.name),
           insertSession st (Session.mk freshId user.username user.role user.name now))
      else (Response.mk 401 (Body.err "Invalid username or password"), st)

/-- POST /api/auth/logout (src/server.js:84-93). -/
def logout (e1 : Bool) (st : Store) (tok : Option String) : Response × Store :=
  if e1 then (Response.mk 500 (Body.err "Logout failed"), st)
  else (Response.mk 200 Body.ok, deleteSessionById st tok)

/-- POST /api/auth/validate (src/server.js:95-110).  A store error is folded
into the invalid-session branch (`if (err || !session)`). -/
def validate (e1 : Bool) (st : Store) (tok : Option String) : Response :=
  if e1 then Response.mk 401 (Body.err "Invalid session")
  else
    match findSessionById st tok with
    | none => Response.mk 401 (Body.err "Invalid session")
    | some s => Response.mk 200 (Body.sessionView s.username s.role s.name s.loginTime)

/-- authenticate middleware (src/server.js:112-131). -/
def authenticate (e : Bool) (st : Store) (tok : Option String) : AuthResult :=
  if isBlankTok tok then AuthResult.fail (Response.mk 401 (Body.err "No session provided"))
  else if e then AuthResult.fail (Response.mk 401 (Body.err "Invalid session"))
  else
    match findSessionById st tok with
    | none => AuthResult.fail (Response.mk 401 (Body.err "Invalid session"))
    | some s => AuthResult.ok s.username s.role s.name

/-- authenticateAdmin middleware (src/server.js:133-140). -/
def authenticateAdmin (e : Bool) (st : Store) (tok : Option String) : AuthResult :=
  match authenticate e st tok with
  | AuthResult.fail r => AuthResult.fail r
  | AuthResult.ok u r n =>
    if r != "admin" then AuthResult.fail (Response.mk 403 (Body.err "Admin access required"))
    else AuthResult.ok u r n

/-- Body of GET /api/users (src/server.js:142-149), after the middleware. -/
def listUsersCore (e1 : Bool) (st : Store) : Response :=
  if e1 then Response.mk 500 (Body.err "Failed to fetch users")
  else Response.mk 200 (Body.userList (st.users.map (fun u => (u.username, u.role, u.name, u.createdAt))))

/-- Body of POST /api/users (src/server.js:151-170), after the middleware.
The INSERT reports a constraint violation (409) on a duplicate username and
a generic failure (500) otherwise. -/
def createUserCore (e1 : Bool) (st : Store) (username password name role : Option String)
    (now : Nat) : Response × Store :=
  match username, password, name with
  | some u, some p, some n =>
    if u == "" || p == "" || n == "" then
      (Response.mk 400 (Body.err "Missing required fields"), st)
    else if userExists st u then
      (Response.mk 409 (Body.err "Username already exists"), st)
    else if e1 then (Response.mk 500 (Body.err "User creation failed"), st)
    else (Response.mk 200 Body.ok, insertUser st (User.mk u (bhash p) (effRole role) n now))
  | _, _, _ => (Response.mk 400 (Body.err "Missing required fields"), st)

/-- Body of DELETE /api/users/:username (src/server.js:172-191), after the
middleware.  The user row is deleted first; the follow-up session cleanup
statement has no error callback in the source, so its failure (`e2`) is
silently ignored and the response is success regardless. -/
def deleteUserCore (e1 e2 : Bool) (st : Store) (username : String) : Response × Store :=
  if username == "admin" then (Response.mk 403 (Body.err "Cannot delete admin user"), st)
  else if e1 then (Response.mk 500 (Body.err "User deletion failed"), st)
  else if userExists st username then
    let st1 := deleteUserByUsername st username
    (Response.mk 200 Body.ok, if e2 then st1 else deleteSessionsByUsername st1 username)
  else (Response.mk 404 (Body.err "User not found"), st)

/-- Body of GET /api/handover/:id (src/server.js:193-207), after the
middleware.  JSON.parse of the stored text is not wrapped in try/catch, so
a non-JSON `data` column makes the handler throw. -/
def getHandoverCore (e1 : Bool) (st : Store) (id : String) : Outcome :=
  if e1 then Outcome.resp (Response.mk 500 (Body.err "Failed to fetch handover"))
  else
    match findHandoverById st id with
    | none => Outcome.resp (Response.mk 404 (Body.err "Handover not found"))
    | some row =>
      match jparse row.data with
      | some payload => Outcome.resp (Response.mk 200 (Body.doc payload))
      | none => Outcome.thrown

/-- Body of POST /api/handover/:id (src/server.js:209-222), after the
middleware. -/
def putHandoverCore (e1 : Bool) (st : Store) (id payload : String) (now : Nat) :
    Response × Store :=
  if e1 then (Response.mk 500 (Body.err "Failed to save handover"), st)
  else (Response.mk 200 Body.ok, upsertHandover st id (jstringify payload) now)

/-- Sort handover rows by last_updated descending (ORDER BY last_updated DESC). -/
def insertByUpdatedDesc (h : Handover) : List Handover → List Handover
  | [] => [h]
  | x :: xs => if x.lastUpdated ≤ h.lastUpdated then h :: x :: xs
               else x :: insertByUpdatedDesc h xs

/-- The rows of SELECT id, last_updated FROM handovers ORDER BY last_updated DESC. -/
def listDocumentSummaries (st : Store) : List (String × Nat) :=
  (st.handovers.foldr insertByUpdatedDesc []).map (fun h => (h.id, h.lastUpdated))

/-- Body of GET /api/handovers (src/server.js:224-232), after the middleware. -/
def listHandoversCore (e1 : Bool) (st : Store) : Response :=
  if e1 then Response.mk 500 (Body.err "Failed to fetch handovers")
  else Response.mk 200 (Body.docList (listDocumentSummaries st))

/-- One request dispatched through the SQLite server's routes. -/
def handle (f : ErrFlags) (st : Store) (req : Request) (freshId : String)
    (now : Nat) : Outcome × Store :=
  match req with
  | Request.login u p =>
    let z := login f.e1 f.e2 st u p freshId now
    (Outcome.resp z.1, z.2)
  | Request.logout tok =>
    let z := logout f.e1 st tok
    (Outcome.resp z.1, z.2)
  | Request.validate tok => (Outcome.resp (validate f.e1 st tok), st)
  | Request.listUsers tok =>
    match authenticateAdmin f.eAuth st tok with
    | AuthResult.fail r => (Outcome.resp r, st)
    | AuthResult.ok _ _ _ => (Outcome.resp (listUsersCore f.e1 st), st)
  | Request.createUser tok u p n role =>
    match authenticateAdmin f.eAuth st tok with
    | AuthResult.fail r => (Outcome.resp r, st)
    | AuthResult.ok _ _ _ =>
      let z := createUserCore f.e1 st u p n role now
      (Outcome.resp z.1, z.2)
  | Request.deleteUser tok u =>
    match authenticateAdmin f.eAuth st tok with
    | AuthResult.fail r => (Outcome.resp r, st)
    | AuthResult.ok _ _ _ =>
      let z := deleteUserCore f.e1 f.e2 st u
      (Outcome.resp z.1, z.2)
  | Request.getHandover tok id =>
    match authenticate f.eAuth st tok with
    | AuthResult.fail r => (Outcome.resp r, st)
    | AuthResult.ok _ _ _ => (getHandoverCore f.e1 st id, st)
  | Request.putHandover tok id payload =>
    match authenticate f.eAuth st tok with
    | AuthResult.fail r => (Outcome.resp r, st)
    | AuthResult.ok _ _ _ =>
      let z := putHandoverCore f.e1 st id payload now
      (Outcome.resp z.1, z.2)
  | Request.listHandovers tok =>
    match authenticate f.eAuth st tok with
    | AuthResult.fail r => (Outcome.resp r, st)
    | AuthResult.ok _ _ _ => (Outcome.resp (listHandoversCore f.e1 st), st)

end Sq

namespace Pg

/-- POST /api/auth/login (src/unnamed/part_000:61-91) given both
credential fields present as strings.  The whole body is inside try/catch,
so any store error (`e1` lookup, `e2` insert, which also covers a
duplicate session_id) is caught and mapped to 500 Login failed.  The
absent-password request is modelled by `Pg.loginRoute`. -/
def login (e1 e2 : Bool) (st : Store) (username password freshId : String)
    (now : Nat) : Response × Store :=
  if e1 then (Response.mk 500 (Body.err "Login failed"), st)
  else
    match findUserByUsername st username with
    | none => (Response.mk 401 (Body.err "Invalid username or password"), st)
    | some user =>
      if bverify password user.passwordHash then
        if e2 || sessionIdExists st freshId then
          (Response.mk 500 (Body.err "Login failed"), st)
        else
          (Response.mk 200 (Body.loginOk freshId user.username user.role user.name),
           insertSession st (Session.mk freshId user.username user.role user.name now))
      else (Response.mk 401 (Body.err "Invalid username or password"), st)

/-- POST /api/auth/logout (src/unnamed/part_000:93-102). -/
def logout (e1 : Bool) (st : Store) (tok : Option String) : Response × Store :=
  if e1 then (Response.mk 500 (Body.err "Logout failed"), st)
  else (Response.mk 200 Body.ok, deleteSessionById st tok)

/-- POST /api/auth/validate (src/unnamed/part_000:104-124).  The catch
branch returns 401 Invalid session, the same as the no-row branch. -/
def validate (e1 : Bool) (st : Store) (tok : Option String) : Response :=
  if e1 then Response.mk 401 (Body.err "Invalid session")
  else
    match findSessionById st tok with
    | none => Response.mk 401 (Body.err "Invalid session")
    | some s => Response.mk 200 (Body.sessionView s.username s.role s.name s.loginTime)

/-- authenticate middleware (src/unnamed/part_000:126-149); its catch
branch returns 401 Authentication failed. -/
def authenticate (e : Bool) (st : Store) (tok : Option String) : AuthResult :=
  if isBlankTok tok then AuthResult.fail (Response.mk 401 (Body.err "No session provided"))
  else if e then AuthResult.fail (Response.mk 401 (Body.err "Authentication failed"))
  else
    match findSessionById st tok with
    | none => AuthResult.fail (Response.mk 401 (Body.err "Invalid session"))
    | some s => AuthResult.ok s.username s.role s.name

/-- authenticateAdmin middleware (src/unnamed/part_000:151-158). -/
def authenticateAdmin (e : Bool) (st : Store) (tok : Option String) : AuthResult :=
  match authenticate e st tok with
  | AuthResult.fail r => AuthResult.fail r
  | AuthResult.ok u r n =>
    if r != "admin" then AuthResult.fail (Response.mk 403 (Body.err "Admin access required"))
    else AuthResult.ok u r n

/-- Body of GET /api/users (src/unnamed/part_000:160-168). -/
def listUsersCore (e1 : Bool) (st : Store) : Response :=
  if e1 then Response.mk 500 (Body.err "Failed to fetch users")
  else Response.mk 200 (Body.userList (st.users.map (fun u => (u.username, u.role, u.name, u.createdAt))))

/-- Body of POST /api/users (src/unnamed/part_000:170-189); error code
23505 (unique violation) maps to 409, any other store error to 500. -/
def createUserCore (e1 : Bool) (st : Store) (username password name role : Option String)
    (now : Nat) : Response × Store :=
  match username, password, name with
  | some u, some p, some n =>
    if u == "" || p == "" || n == "" then
      (Response.mk 400 (Body.err "Missing required fields"), st)
    else if userExists st u then
      (Response.mk 409 (Body.err "Username already exists"), st)
    else if e1 then (Response.mk 500 (Body.err "User creation failed"), st)
    else (Response.mk 200 Body.ok, insertUser st (User.mk u (bhash p) (effRole role) n now))
  | _, _, _ => (Response.mk 400 (Body.err "Missing required fields"), st)

/-- Body of DELETE /api/users/:username (src/unnamed/part_000:191-209).
Unlike the SQLite server, the sessions of the user are deleted BEFORE the
user row is deleted and before the user's existence is known; `e1` fails
the session delete, `e2` the user delete. -/
def deleteUserCore (e1 e2 : Bool) (st : Store) (username : String) : Response × Store :=
  if username == "admin" then (Response.mk 403 (Body.err "Cannot delete admin user"), st)
  else if e1 then (Response.mk 500 (Body.err "User deletion failed"), st)
  else
    let st1 := deleteSessionsByUsername st username
    if e2 then (Response.mk 500 (Body.err "User deletion failed"), st1)
    else if userExists st1 username then
      (Response.mk 200 Body.ok, deleteUserByUsername st1 username)
    else (Response.mk 404 (Body.err "User not found"), st1)

/-- Body of GET /api/handover/:id (src/unnamed/part_000:211-225).  Here
JSON.parse runs inside the try/catch, so a non-JSON `data` column is caught
and mapped to the same 500 as a store error. -/
def getHandoverCore (e1 : Bool) (st : Store) (id : String) : Response :=
  if e1 then Response.mk 500 (Body.err "Failed to fetch handover")
  else
    match findHandoverById st id with
    | none => Response.mk 404 (Body.err "Handover not found")
    | some row =>
      match jparse row.data with
      | some payload => Response.mk 200 (Body.doc payload)
      | none => Response.mk 500 (Body.err "Failed to fetch handover")

/-- Body of POST /api/handover/:id (src/unnamed/part_000:227-244). -/
def putHandoverCore (e1 : Bool) (st : Store) (id payload : String) (now : Nat) :
    Response × Store :=
  if e1 then (Response.mk 500 (Body.err "Failed to save handover"), st)
  else (Response.mk 200 Body.ok, upsertHandover st id (jstringify payload) now)

/-- Body of GET /api/handovers (src/unnamed/part_000:246-254). -/
def listHandoversCore (e1 : Bool) (st : Store) : Response :=
  if e1 then Response.mk 500 (Body.err "Failed to fetch handovers")
  else Response.mk 200 (Body.docList (Sq.listDocumentSummaries st))

/-- One request dispatched through the PostgreSQL server's routes. -/
def handle (f : ErrFlags) (st : Store) (req : Request) (freshId : String)
    (now : Nat) : Outcome × Store :=
  match req with
  | Request.login u p =>
    let z := login f.e1 f.e2 st u p freshId now
    (Outcome.resp z.1, z.2)
  | Request.logout tok =>
    let z := logout f.e1 st tok
    (Outcome.resp z.1, z.2)
  | Request.validate tok => (Outcome.resp (validate f.e1 st tok), st)
  | Request.listUsers tok =>
    match authenticateAdmin f.eAuth st tok with
    | AuthResult.fail r => (Outcome.resp r, st)
    | AuthResult.ok _ _ _ => (Outcome.resp (listUsersCore f.e1 st), st)
  | Request.createUser tok u p n role =>
    match authenticateAdmin f.eAuth st tok with
    | AuthResult.fail r => (Outcome.resp r, st)
    | AuthResult.ok _ _ _ =>
      let z := createUserCore f.e1 st u p n role now
      (Outcome.resp z.1, z.2)
  | Request.deleteUser tok u =>
    match authenticateAdmin f.eAuth st tok with
    | AuthResult.fail r => (Outcome.resp r, st)
    | AuthResult.ok _ _ _ =>
      let z := deleteUserCore f.e1 f.e2 st u
      (Outcome.resp z.1, z.2)
  | Request.getHandover tok id =>
    match authenticate f.eAuth st tok with
    | AuthResult.fail r => (Outcome.resp r, st)
    | AuthResult.ok _ _ _ => (Outcome.resp (getHandoverCore f.e1 st id), st)
  | Request.putHandover tok id payload =>
    match authenticate f.eAuth st tok with
    | AuthResult.fail r => (Outcome.resp r, st)
    | AuthResult.ok _ _ _ =>
      let z := putHandoverCore f.e1 st id payload now
      (Outcome.resp z.1, z.2)
  | Request.listHandovers tok =>
    match authenticate f.eAuth st tok with
    | AuthResult.fail r => (Outcome.resp r, st)
    | AuthResult.ok _ _ _ => (Outcome.resp (listHandoversCore f.e1 st), st)

end Pg

/-- The SQLite server's seeded initial store (src/server.js:16-48): users
admin/admin123 and maintenance/shift2025, no sessions, no handovers. -/
def sqInit : Store :=
  Store.mk
    [User.mk "admin" (bhash "admin123") "admin" "System Administrator" 0,
     User.mk "maintenance" (bhash "shift2025") "user" "Maintenance Team" 0]
    [] []

/-- The PostgreSQL server's seeded initial store
(src/unnamed/part_000:18-59): only the admin user, whose password comes
from the environment (default temporaryDefaultPassword). -/
def pgInit (adminPassword : String) : Store :=
  Store.mk [User.mk "admin" (bhash adminPassword) "admin" "System Administrator" 0] [] []

/-- Stores reachable through the SQLite server's API from its seeded
initial store, under arbitrary store-failure injection. -/
inductive SqReachable : Store → Prop where
  | init : SqReachable sqInit
  | step (f : ErrFlags) (st : Store) (req : Request) (freshId : String) (now : Nat) :
      SqReachable st → SqReachable (Sq.handle f st req freshId now).2

/-- Stores reachable through the PostgreSQL server's API from its seeded
initial store, under arbitrary store-failure injection. -/
inductive PgReachable (adminPassword : String) : Store → Prop where
  | init : PgReachable adminPassword (pgInit adminPassword)
  | step (f : ErrFlags) (st : Store) (req : Request) (freshId : String) (now : Nat) :
      PgReachable adminPassword st →
      PgReachable adminPassword (Pg.handle f st req freshId now).2

/-- Every session row references an existing user row. -/
def sessionsOk (st : Store) : Bool :=
  st.sessions.all (fun s => userExists st s.username)

/-- Every handover row's data column is within the image of serialization
(JSON.parse succeeds on it). -/
def handoversOk (st : Store) : Bool :=
  st.handovers.all (fun h => (jparse h.data).isSome)

/-- Every user row's role is one of the two spec roles. -/
def rolesOk (st : Store) : Bool :=
  st.users.all (fun u => u.role == "admin" || u.role == "user")

/-- The login handler rejects this attempt: the user row is absent, or the
password does not verify against the stored hash. -/
def loginRejects (st : Store) (u p : String) : Bool :=
  match findUserByUsername st u with
  | none => true
  | some usr => !(bverify p usr.passwordHash)

/-- The per-step side condition of a failure-free run: a login step's
generated token does not collide with an existing session (a collision
would make the session INSERT itself fail). -/
def freshForReq (st : Store) (req : Request) (freshId : String) : Bool :=
  match req with
  | Request.login _ _ => !(sessionIdExists st freshId)
  | _ => true

/-- Run a request sequence (request, generated token, timestamp) through
the SQLite server without store failures; collects the outcomes. -/
def sqRun (st : Store) : List (Request × String × Nat) → List Outcome × Store
  | [] => ([], st)
  | (req, fid, now) :: rest =>
    let z := Sq.handle noErr st req fid now
    let w := sqRun z.2 rest
    (z.1 :: w.1, w.2)

/-- Run a request sequence through the PostgreSQL server without store
failures. -/
def pgRun (st : Store) : List (Request × String × Nat) → List Outcome × Store
  | [] => ([], st)
  | (req, fid, now) :: rest =>
    let z := Pg.handle noErr st req fid now
    let w := pgRun z.2 rest
    (z.1 :: w.1, w.2)

/-- Token freshness holds at every login step of the run (no generated
token collides with a then-current session). -/
def freshRun (st : Store) : List (Request × String × Nat) → Bool
  | [] => true
  | (req, fid, now) :: rest =>
    freshForReq st req fid && freshRun (Sq.handle noErr st req fid now).2 rest

/-- Does the request go through the admin middleware? -/
def isAdminReq : Request → Bool
  | Request.listUsers _ => true
  | Request.createUser _ _ _ _ _ => true
  | Request.deleteUser _ _ => true
  | _ => false

/-- The token carried by the request, if it is a protected route. -/
def reqToken : Request → Option String
  | Request.login _ _ => none
  | Request.logout tok => tok
  | Request.validate tok => tok
  | Request.listUsers tok => tok
  | Request.createUser tok _ _ _ _ => tok
  | Request.deleteUser tok _ => tok
  | Request.getHandover tok _ => tok
  | Request.putHandover tok _ _ => tok
  | Request.listHandovers tok => tok

/-- The role field of a createUser request stays within the two spec roles
after defaulting; vacuously true for every other request. -/
def reqRolesOk : Request → Bool
  | Request.createUser _ _ _ _ r => effRole r == "admin" || effRole r == "user"
  | _ => true

/-- The seeded SQLite store with one logged-in admin session (used as a
concrete evaluation point). -/
def stAdm : Store :=
  Store.mk sqInit.users [Session.mk "tok1" "admin" "admin" "System Administrator" 0] []

/-- The seeded SQLite store with an admin session and a non-admin session
(used as a concrete evaluation point). -/
def stTwoSessions : Store :=
  Store.mk sqInit.users
    [Session.mk "tokA" "admin" "admin" "System Administrator" 0,
     Session.mk "tokU" "maintenance" "user" "Maintenance Team" 0]
    []

/-- SELECT * FROM users WHERE username = ? with a possibly-absent request
field: an absent username binds NULL and matches no row. -/
def findUserByOptUsername (st : Store) (u : Option String) : Option User :=
  match u with
  | none => none
  | some s => findUserByUsername st s

/-- POST /api/auth/login (src/server.js:52-82) at the request-body level,
where the username and password JSON fields may be absent.  An absent
username binds NULL in the lookup and behaves like an unknown user; but
when the lookup returns a row and the password field is absent,
bcrypt.compareSync(undefined, hash) at src/server.js:60 throws — inside
the db.get callback, past any try/catch Express provides — so the handler
ends in an uncaught throw with no response and no state change.  (A
non-string password field makes compareSync throw the same way; it is
outside this string-typed embedding.)  With both fields present this
coincides with `Sq.login` (theorem loginRoute_agrees). -/
def Sq.loginRoute (e1 e2 : Bool) (st : Store) (username password : Option String)
    (freshId : String) (now : Nat) : Outcome × Store :=
  if e1 then (Outcome.resp (Response.mk 401 (Body.err "Invalid username or password")), st)
  else
    match findUserByOptUsername st username with
    | none => (Outcome.resp (Response.mk 401 (Body.err "Invalid username or password")), st)
    | some user =>
      match password with
      | none => (Outcome.thrown, st)
      | some p =>
        if bverify p user.passwordHash then
          if e2 || sessionIdExists st freshId then
            (Outcome.resp (Response.mk 500 (Body.err "Session creation failed")), st)
          else
            (Outcome.resp
               (Response.mk 200 (Body.loginOk freshId user.username user.role user.name)),
             insertSession st (Session.mk freshId user.username user.role user.name now))
        else (Outcome.resp (Response.mk 401 (Body.err "Invalid username or password")), st)

/-- POST /api/auth/login (src/unnamed/part_000:61-91) at the request-body
level.  Here bcrypt.compareSync runs inside the handler's try/catch, so
the throw on an absent password with an existing user is caught and mapped
to the same 500 Login failed as any other error in the body; this handler
never lets a throw escape. -/
def Pg.loginRoute (e1 e2 : Bool) (st : Store) (username password : Option String)
    (freshId : String) (now : Nat) : Outcome × Store :=
  if e1 then (Outcome.resp (Response.mk 500 (Body.err "Login failed")), st)
  else
    match findUserByOptUsername st username with
    | none => (Outcome.resp (Response.mk 401 (Body.err "Invalid username or password")), st)
    | some user =>
      match password with
      | none => (Outcome.resp (Response.mk 500 (Body.err "Login failed")), st)
      | some p =>
        if bverify p user.passwordHash then
          if e2 || sessionIdExists st freshId then
            (Outcome.resp (Response.mk 500 (Body.err "Login failed")), st)
          else
            (Outcome.resp
               (Response.mk 200 (Body.loginOk freshId user.username user.role user.name)),
             insertSession st (Session.mk freshId user.username user.role user.name now))
        else (Outcome.resp (Response.mk 401 (Body.err "Invalid username or password")), st)

/-! ## Helper lemmas -/

theorem find?_append_none {α : Type} {p : α → Bool} {l1 l2 : List α}
    (h : l1.find? p = none) : (l1 ++ l2).find? p = l2.find? p := by
  rw [List.find?_append, h, Option.none_or]

theorem find?_not_filter {α : Type} (q : α → Bool) (l : List α) :
    (l.filter (fun a => !(q a))).find? q = none := by
  rw [List.find?_eq_none]
  intro x hx
  have h2 := (List.mem_filter.mp hx).2
  simp only [Bool.not_eq_true'] at h2
  simp [h2]

theorem find?_eq_none_of_any_eq_false {α : Type} {p : α → Bool} {l : List α}
    (h : l.any p = false) : l.find? p = none := by
  rw [List.find?_eq_none]
  intro x hx hpx
  rw [List.any_eq_false] at h
  exact (h x hx) hpx

theorem userExists_iff {st : Store} {u : String} :
    userExists st u = true ↔ ∃ x ∈ st.users, x.username = u := by
  simp [userExists, findUserByUsername, List.find?_isSome]

theorem sessionsOk_iff {st : Store} :
    sessionsOk st = true ↔ ∀ s ∈ st.sessions, ∃ x ∈ st.users, x.username = s.username := by
  simp [sessionsOk, List.all_eq_true, userExists_iff]

theorem handoversOk_iff {st : Store} :
    handoversOk st = true ↔ ∀ h ∈ st.handovers, (jparse h.data).isSome = true := by
  simp [handoversOk, List.all_eq_true]

theorem rolesOk_iff {st : Store} :
    rolesOk st = true ↔ ∀ u ∈ st.users, u.role = "admin" ∨ u.role = "user" := by
  simp [rolesOk, List.all_eq_true]

theorem jparse_jstringify (p : String) : jparse (jstringify p) = some p := by
  cases p
  rfl

/-! ## Claim C3 -/

/-- C3: a login attempt that fails authentication — whether the user row is
absent or the password does not verify against the stored hash — yields the
identical InvalidCredentials error (status 401, message "Invalid username
or password") in both server implementations, with the store unchanged. -/
theorem c3_invalid_credentials_uniform (st : Store) (u p fid : String) (now : Nat)
    (h : loginRejects st u p = true) :
    Sq.login false false st u p fid now =
      (Response.mk 401 (Body.err "Invalid username or password"), st) ∧
    Pg.login false false st u p fid now =
      (Response.mk 401 (Body.err "Invalid username or password"), st) := by
  unfold loginRejects at h
  constructor
  · unfold Sq.login
    cases hu : findUserByUsername st u with
    | none => simp [hu]
    | some usr =>
      rw [hu] at h
      simp only [Bool.not_eq_true'] at h
      simp [hu, h]
  · unfold Pg.login
    cases hu : findUserByUsername st u with
    | none => simp [hu]
    | some usr =>
      rw [hu] at h
      simp only [Bool.not_eq_true'] at h
      simp [hu, h]

/-- Witness for C3 at concrete inputs: an unknown username and a known
username with a wrong password produce the same rejection. -/
theorem c3_witness :
    Sq.login false false sqInit "ghost" "pw" "s1" 1 =
      (Response.mk 401 (Body.err "Invalid username or password"), sqInit) ∧
    Sq.login false false sqInit "admin" "wrongpw" "s1" 1 =
      (Response.mk 401 (Body.err "Invalid username or password"), sqInit) :=
  ⟨(c3_invalid_credentials_uniform sqInit "ghost" "pw" "s1" 1 (by decide)).1,
   (c3_invalid_credentials_uniform sqInit "admin" "wrongpw" "s1" 1 (by decide)).1⟩

/-! ## Claim C4 -/

/-- C4: for every session token, logout followed by validate on the same
token fails with InvalidSession (401 "Invalid session"), in both server
implementations: after logout the token resolves to no session row. -/
theorem c4_logout_invalidates (st : Store) (t : String) :
    Sq.validate false ((Sq.logout false st (some t)).2) (some t) =
      Response.mk 401 (Body.err "Invalid session") ∧
    Pg.validate false ((Pg.logout false st (some t)).2) (some t) =
      Response.mk 401 (Body.err "Invalid session") := by
  have hfind : (st.sessions.filter (fun s => !(s.sessionId == t))).find?
      (fun s => s.sessionId == t) = none := find?_not_filter _ _
  constructor
  · simp [Sq.logout, Sq.validate, deleteSessionById, findSessionById, hfind]
  · simp [Pg.logout, Pg.validate, deleteSessionById, findSessionById, hfind]

/-! ## Claim C5 -/

/-- Counterexample to C5: a store error during the SQLite login user lookup
yields the 401 InvalidCredentials response, not InternalError 500, and a
store error during validate yields the 401 InvalidSession response in both
implementations. -/
theorem c5_store_error_counterexample :
    (Sq.login true false sqInit "admin" "admin123" "s1" 1).1 =
      Response.mk 401 (Body.err "Invalid username or password") ∧
    (Sq.login true false sqInit "admin" "admin123" "s1" 1).1.status ≠ 500 ∧
    Sq.validate true stAdm (some "tok1") = Response.mk 401 (Body.err "Invalid session") ∧
    Sq.validate true stAdm (some "tok1") ≠ Response.mk 500 (Body.err "Invalid session") ∧
    Pg.validate true (pgInit "temporaryDefaultPassword") (some "tok1") =
      Response.mk 401 (Body.err "Invalid session") := by
  decide

/-- C5 as amended: store failures are mapped to a generic InternalError
(500) for the SQLite session INSERT at login, for the whole PostgreSQL
login body, for logout, for the user-management statements and for the
document statements; but a store error during the SQLite login user lookup
yields the 401 InvalidCredentials response, and a store error during
validate (both implementations) or during the authenticate middleware
lookup (both implementations) yields a 401 session error, never 500. -/
theorem c5_store_error_mapping (st : Store) (tok : Option String)
    (u p fid id payload : String) (nm role : Option String) (now : Nat) (e2 : Bool) :
    Sq.login true e2 st u p fid now =
      (Response.mk 401 (Body.err "Invalid username or password"), st) ∧
    (∀ usr, findUserByUsername st u = some usr → bverify p usr.passwordHash = true →
      Sq.login false true st u p fid now =
        (Response.mk 500 (Body.err "Session creation failed"), st)) ∧
    Pg.login true e2 st u p fid now = (Response.mk 500 (Body.err "Login failed"), st) ∧
    (∀ usr, findUserByUsername st u = some usr → bverify p usr.passwordHash = true →
      Pg.login false true st u p fid now = (Response.mk 500 (Body.err "Login failed"), st)) ∧
    Sq.validate true st tok = Response.mk 401 (Body.err "Invalid session") ∧
    Pg.validate true st tok = Response.mk 401 (Body.err "Invalid session") ∧
    (isBlankTok tok = false →
      Sq.authenticate true st tok = AuthResult.fail (Response.mk 401 (Body.err "Invalid session")) ∧
      Pg.authenticate true st tok =
        AuthResult.fail (Response.mk 401 (Body.err "Authentication failed"))) ∧
    Sq.logout true st tok = (Response.mk 500 (Body.err "Logout failed"), st) ∧
    Pg.logout true st tok = (Response.mk 500 (Body.err "Logout failed"), st) ∧
    Sq.listUsersCore true st = Response.mk 500 (Body.err "Failed to fetch users") ∧
    Pg.listUsersCore true st = Response.mk 500 (Body.err "Failed to fetch users") ∧
    (u ≠ "" → p ≠ "" → (∀ x, nm = some x → x ≠ "") → userExists st u = false →
      (∀ x, nm = some x →
        Sq.createUserCore true st (some u) (some p) nm role now =
          (Response.mk 500 (Body.err "User creation failed"), st) ∧
        Pg.createUserCore true st (some u) (some p) nm role now =
          (Response.mk 500 (Body.err "User creation failed"), st))) ∧
    (u ≠ "admin" →
      Sq.deleteUserCore true e2 st u = (Response.mk 500 (Body.err "User deletion failed"), st) ∧
      Pg.deleteUserCore true e2 st u = (Response.mk 500 (Body.err "User deletion failed"), st)) ∧
    Sq.getHandoverCore true st id = Outcome.resp (Response.mk 500 (Body.err "Failed to fetch handover")) ∧
    Pg.getHandoverCore true st id = Response.mk 500 (Body.err "Failed to fetch handover") ∧
    Sq.putHandoverCore true st id payload now =
      (Response.mk 500 (Body.err "Failed to save handover"), st) ∧
    Pg.putHandoverCore true st id payload now =
      (Response.mk 500 (Body.err "Failed to save handover"), st) ∧
    Sq.listHandoversCore true st = Response.mk 500 (Body.err "Failed to fetch handovers") ∧
    Pg.listHandoversCore true st = Response.mk 500 (Body.err "Failed to fetch handovers") := by
  refine ⟨by simp [Sq.login], ?_, by simp [Pg.login], ?_,
    by simp [Sq.validate], by simp [Pg.validate], ?_,
    by simp [Sq.logout], by simp [Pg.logout],
    by simp [Sq.listUsersCore], by simp [Pg.listUsersCore], ?_, ?_,
    by simp [Sq.getHandoverCore], by simp [Pg.getHandoverCore],
    by simp [Sq.putHandoverCore], by simp [Pg.putHandoverCore],
    by simp [Sq.listHandoversCore], by simp [Pg.listHandoversCore]⟩
  · intro usr hu hv
    simp [Sq.login, hu, hv]
  · intro usr hu hv
    simp [Pg.login, hu, hv]
  · intro hb
    constructor <;> simp [Sq.authenticate, Pg.authenticate, hb]
  · intro hu hp hn hex x hx
    subst hx
    have hx2 : x ≠ "" := hn x rfl
    constructor <;>
      simp [Sq.createUserCore, Pg.createUserCore, hu, hp, hx2, hex]
  · intro hadm
    have hadm2 : (u == "admin") = false := beq_eq_false_iff_ne.mpr hadm
    constructor <;> simp [Sq.deleteUserCore, Pg.deleteUserCore, hadm2]

/-- Witness for the amended C5 at concrete inputs. -/
theorem c5_witness :
    Sq.login false true sqInit "admin" "admin123" "s9" 3 =
      (Response.mk 500 (Body.err "Session creation failed"), sqInit) ∧
    Pg.login false true (pgInit "pw0") "admin" "pw0" "s9" 3 =
      (Response.mk 500 (Body.err "Login failed"), pgInit "pw0") ∧
    Sq.authenticate true stAdm (some "tok1") =
      AuthResult.fail (Response.mk 401 (Body.err "Invalid session")) ∧
    Sq.createUserCore true stAdm (some "eve") (some "pw") (some "Eve") none 4 =
      (Response.mk 500 (Body.err "User creation failed"), stAdm) ∧
    Sq.deleteUserCore true false stAdm "maintenance" =
      (Response.mk 500 (Body.err "User deletion failed"), stAdm) := by
  have h1 := c5_store_error_mapping sqInit (some "tok1") "admin" "admin123" "s9" "d1" "pl"
    (some "Eve") none 3 false
  have h2 := c5_store_error_mapping (pgInit "pw0") (some "tok1") "admin" "pw0" "s9" "d1" "pl"
    (some "Eve") none 3 false
  have h3 := c5_store_error_mapping stAdm (some "tok1") "eve" "pw" "s9" "d1" "pl"
    (some "Eve") none 4 false
  refine ⟨h1.2.1 (User.mk "admin" (bhash "admin123") "admin" "System Administrator" 0)
      (by decide) (by decide),
    h2.2.2.2.1 (User.mk "admin" (bhash "pw0") "admin" "System Administrator" 0)
      (by decide) (by decide),
    (h3.2.2.2.2.2.2.1 (by decide)).1, ?_, ?_⟩
  · exact ((h3.2.2.2.2.2.2.2.2.2.2.2.1 (by decide) (by decide)
      (by intro x hx; cases hx; decide) (by decide)) "Eve" rfl).1
  · exact (h3.2.2.2.2.2.2.2.2.2.2.2.2.1 (by decide)).1

/-! ## Claim C6 -/

/-- Counterexample to C6: the validate endpoint itself performs no
absent/blank token check — with the sessionId absent (or blank) it returns
401 "Invalid session" (InvalidSession), not the NoSession error "No session
provided", in both implementations. -/
theorem c6_validate_nosession_counterexample :
    Sq.validate false sqInit none = Response.mk 401 (Body.err "Invalid session") ∧
    Sq.validate false sqInit (some "") = Response.mk 401 (Body.err "Invalid session") ∧
    Sq.validate false sqInit none ≠ Response.mk 401 (Body.err "No session provided") ∧
    Pg.validate false (pgInit "temporaryDefaultPassword") none =
      Response.mk 401 (Body.err "Invalid session") := by
  decide

/-- C6 as amended: the absent/blank vs unmatched distinction lives in the
authenticate middleware, not in the validate endpoint.  The middleware
fails with NoSession (401 "No session provided") when the token is absent
or blank and with InvalidSession (401 "Invalid session") when the token is
present but matches no session row; the validate endpoint returns the
InvalidSession error in all of these cases. -/
theorem c6_session_error_kinds (st : Store) (tok : Option String) :
    Sq.authenticate false st none =
      AuthResult.fail (Response.mk 401 (Body.err "No session provided")) ∧
    Pg.authenticate false st none =
      AuthResult.fail (Response.mk 401 (Body.err "No session provided")) ∧
    Sq.authenticate false st (some "") =
      AuthResult.fail (Response.mk 401 (Body.err "No session provided")) ∧
    Pg.authenticate false st (some "") =
      AuthResult.fail (Response.mk 401 (Body.err "No session provided")) ∧
    (isBlankTok tok = false → findSessionById st tok = none →
      Sq.authenticate false st tok = AuthResult.fail (Response.mk 401 (Body.err "Invalid session")) ∧
      Pg.authenticate false st tok = AuthResult.fail (Response.mk 401 (Body.err "Invalid session"))) ∧
    (findSessionById st tok = none →
      Sq.validate false st tok = Response.mk 401 (Body.err "Invalid session") ∧
      Pg.validate false st tok = Response.mk 401 (Body.err "Invalid session")) := by
  refine ⟨by simp [Sq.authenticate, isBlankTok], by simp [Pg.authenticate, isBlankTok],
    by simp [Sq.authenticate, isBlankTok], by simp [Pg.authenticate, isBlankTok], ?_, ?_⟩
  · intro hb hn
    constructor <;> simp [Sq.authenticate, Pg.authenticate, hb, hn]
  · intro hn
    constructor <;> simp [Sq.validate, Pg.validate, hn]

/-- Witness for the amended C6 at a concrete unmatched token. -/
theorem c6_witness :
    Sq.authenticate false sqInit (some "zzz") =
      AuthResult.fail (Response.mk 401 (Body.err "Invalid session")) ∧
    Sq.validate false sqInit (some "zzz") = Response.mk 401 (Body.err "Invalid session") :=
  ⟨((c6_session_error_kinds sqInit (some "zzz")).2.2.2.2.1 (by decide) (by decide)).1,
   ((c6_session_error_kinds sqInit (some "zzz")).2.2.2.2.2 (by decide)).1⟩

/-! ## Claim C1 -/

/-- C1: for a stored user record and its correct password, login succeeds
returning the user's username/role/name snapshot, and an immediately
following validate on the returned token returns the same triple (with the
login timestamp), in both server implementations. -/
theorem c1_login_then_validate_same_view (st : Store) (u p fid : String) (now : Nat)
    (usr : User)
    (hu : findUserByUsername st u = some usr)
    (hv : bverify p usr.passwordHash = true)
    (hfresh : sessionIdExists st fid = false) :
    (Sq.login false false st u p fid now).1 =
      Response.mk 200 (Body.loginOk fid usr.username usr.role usr.name) ∧
    Sq.validate false (Sq.login false false st u p fid now).2 (some fid) =
      Response.mk 200 (Body.sessionView usr.username usr.role usr.name now) ∧
    (Pg.login false false st u p fid now).1 =
      Response.mk 200 (Body.loginOk fid usr.username usr.role usr.name) ∧
    Pg.validate false (Pg.login false false st u p fid now).2 (some fid) =
      Response.mk 200 (Body.sessionView usr.username usr.role usr.name now) := by
  have hany : st.sessions.any (fun s => s.sessionId == fid) = false := hfresh
  have hfind : findSessionById
      (insertSession st (Session.mk fid usr.username usr.role usr.name now)) (some fid) =
      some (Session.mk fid usr.username usr.role usr.name now) := by
    simp only [findSessionById, insertSession]
    rw [find?_append_none (find?_eq_none_of_any_eq_false hany)]
    simp
  have hlogS : Sq.login false false st u p fid now =
      (Response.mk 200 (Body.loginOk fid usr.username usr.role usr.name),
       insertSession st (Session.mk fid usr.username usr.role usr.name now)) := by
    simp [Sq.login, hu, hv, hfresh]
  have hlogP : Pg.login false false st u p fid now =
      (Response.mk 200 (Body.loginOk fid usr.username usr.role usr.name),
       insertSession st (Session.mk fid usr.username usr.role usr.name now)) := by
    simp [Pg.login, hu, hv, hfresh]
  refine ⟨by rw [hlogS], ?_, by rw [hlogP], ?_⟩
  · rw [hlogS]
    simp [Sq.validate, hfind]
  · rw [hlogP]
    simp [Pg.validate, hfind]

/-- Witness for C1: logging in as the seeded admin and validating the fresh
token returns the same admin/System Administrator view. -/
theorem c1_witness :
    (Sq.login false false sqInit "admin" "admin123" "s1" 7).1 =
      Response.mk 200 (Body.loginOk "s1" "admin" "admin" "System Administrator") ∧
    Sq.validate false (Sq.login false false sqInit "admin" "admin123" "s1" 7).2 (some "s1") =
      Response.mk 200 (Body.sessionView "admin" "admin" "System Administrator" 7) ∧
    (Pg.login false false sqInit "admin" "admin123" "s1" 7).1 =
      Response.mk 200 (Body.loginOk "s1" "admin" "admin" "System Administrator") ∧
    Pg.validate false (Pg.login false false sqInit "admin" "admin123" "s1" 7).2 (some "s1") =
      Response.mk 200 (Body.sessionView "admin" "admin" "System Administrator" 7) :=
  c1_login_then_validate_same_view sqInit "admin" "admin123" "s1" 7
    (User.mk "admin" (bhash "admin123") "admin" "System Administrator" 0)
    (by decide) (by decide) (by decide)

/-! ## Claim C2 -/

/-- C2: on an admin-protected operation whose token resolves to a session,
a non-admin role is rejected with Forbidden (403 "Admin access required",
a status distinct from the 401 session failures) and the protected body is
not executed (the response short-circuits and the store is untouched);
an admin role proceeds with the session's identity attached.  Holds for
both server implementations. -/
theorem c2_admin_gate (st : Store) (tok : Option String) (s : Session) (fid : String)
    (now : Nat)
    (hb : isBlankTok tok = false)
    (hs : findSessionById st tok = some s) :
    (s.role ≠ "admin" →
      Sq.authenticateAdmin false st tok =
        AuthResult.fail (Response.mk 403 (Body.err "Admin access required")) ∧
      Pg.authenticateAdmin false st tok =
        AuthResult.fail (Response.mk 403 (Body.err "Admin access required")) ∧
      (∀ req : Request, isAdminReq req = true → reqToken req = tok →
        Sq.handle noErr st req fid now =
          (Outcome.resp (Response.mk 403 (Body.err "Admin access required")), st) ∧
        Pg.handle noErr st req fid now =
          (Outcome.resp (Response.mk 403 (Body.err "Admin access required")), st))) ∧
    (s.role = "admin" →
      Sq.authenticateAdmin false st tok = AuthResult.ok s.username s.role s.name ∧
      Pg.authenticateAdmin false st tok = AuthResult.ok s.username s.role s.name) ∧
    (403 : Nat) ≠ 401 := by
  have hauthS : Sq.authenticate false st tok = AuthResult.ok s.username s.role s.name := by
    simp [Sq.authenticate, hb, hs]
  have hauthP : Pg.authenticate false st tok = AuthResult.ok s.username s.role s.name := by
    simp [Pg.authenticate, hb, hs]
  refine ⟨?_, ?_, by decide⟩
  · intro hr
    have hrb : (s.role == "admin") = false := beq_eq_false_iff_ne.mpr hr
    have hadmS : Sq.authenticateAdmin false st tok =
        AuthResult.fail (Response.mk 403 (Body.err "Admin access required")) := by
      simp [Sq.authenticateAdmin, hauthS, bne, hrb]
    have hadmP : Pg.authenticateAdmin false st tok =
        AuthResult.fail (Response.mk 403 (Body.err "Admin access required")) := by
      simp [Pg.authenticateAdmin, hauthP, bne, hrb]
    refine ⟨hadmS, hadmP, ?_⟩
    intro req hadm htok
    cases req <;> simp_all [isAdminReq, reqToken, Sq.handle, Pg.handle, noErr]
  · intro hr
    have hrb : (s.role == "admin") = true := by simp [hr]
    constructor
    · simp [Sq.authenticateAdmin, hauthS, bne, hrb]
    · simp [Pg.authenticateAdmin, hauthP, bne, hrb]

/-- Witness for C2: the seeded store with one admin session (tokA) and one
non-admin session (tokU); the non-admin token is rejected with 403 and the
admin token proceeds. -/
theorem c2_witness :
    Sq.authenticateAdmin false stTwoSessions (some "tokU") =
      AuthResult.fail (Response.mk 403 (Body.err "Admin access required")) ∧
    Sq.handle noErr stTwoSessions (Request.listUsers (some "tokU")) "f" 1 =
      (Outcome.resp (Response.mk 403 (Body.err "Admin access required")), stTwoSessions) ∧
    Sq.authenticateAdmin false stTwoSessions (some "tokA") =
      AuthResult.ok "admin" "admin" "System Administrator" := by
  have h1 := c2_admin_gate stTwoSessions (some "tokU")
    (Session.mk "tokU" "maintenance" "user" "Maintenance Team" 0) "f" 1
    (by decide) (by decide)
  have h2 := c2_admin_gate stTwoSessions (some "tokA")
    (Session.mk "tokA" "admin" "admin" "System Administrator" 0) "f" 1
    (by decide) (by decide)
  exact ⟨(h1.1 (by decide)).1,
    ((h1.1 (by decide)).2.2 (Request.listUsers (some "tokU")) (by decide) (by decide)).1,
    (h2.2.1 (by decide)).1⟩

/-! ## Invariant preservation helpers -/

theorem sessionsOk_insertSession {st : Store} {s : Session}
    (h : sessionsOk st = true) (hu : userExists st s.username = true) :
    sessionsOk (insertSession st s) = true := by
  rw [sessionsOk_iff] at h ⊢
  intro x hx
  simp only [insertSession, List.mem_append, List.mem_singleton] at hx
  cases hx with
  | inl hmem => exact h x hmem
  | inr heq =>
    subst heq
    exact userExists_iff.mp hu

theorem sessionsOk_filter_sessions {st : Store} {p : Session → Bool}
    (h : sessionsOk st = true) :
    sessionsOk (Store.mk st.users (st.sessions.filter p) st.handovers) = true := by
  rw [sessionsOk_iff] at h ⊢
  intro x hx
  exact h x (List.mem_of_mem_filter hx)

theorem sessionsOk_insertUser {st : Store} {u : User} (h : sessionsOk st = true) :
    sessionsOk (insertUser st u) = true := by
  rw [sessionsOk_iff] at h ⊢
  intro x hx
  simp only [insertUser] at hx ⊢
  obtain ⟨y, hy, hyu⟩ := h x hx
  exact ⟨y, List.mem_append_left _ hy, hyu⟩

theorem sessionsOk_deleteUserAndSessions {st : Store} {u : String}
    (h : sessionsOk st = true) :
    sessionsOk (Store.mk (st.users.filter (fun x => !(x.username == u)))
      (st.sessions.filter (fun s => !(s.username == u))) st.handovers) = true := by
  rw [sessionsOk_iff] at h ⊢
  intro x hx
  have hmem := List.mem_of_mem_filter hx
  have hne := (List.mem_filter.mp hx).2
  obtain ⟨y, hy, hyu⟩ := h x hmem
  refine ⟨y, List.mem_filter.mpr ⟨hy, ?_⟩, hyu⟩
  rw [hyu]
  exact hne

theorem noSessions_of_noUser {st : Store} {u : String}
    (h : sessionsOk st = true) (hex : userExists st u = false) :
    st.sessions.filter (fun s => !(s.username == u)) = st.sessions := by
  rw [List.filter_eq_self]
  intro s hs
  rw [sessionsOk_iff] at h
  obtain ⟨y, hy, hyu⟩ := h s hs
  simp only [Bool.not_eq_true', beq_eq_false_iff_ne]
  intro hsu
  have hu : userExists st u = true := userExists_iff.mpr ⟨y, hy, by rw [hyu, hsu]⟩
  rw [hex] at hu
  exact Bool.false_ne_true hu

theorem handoversOk_upsert {st : Store} {id p : String} {now : Nat}
    (h : handoversOk st = true) :
    handoversOk (upsertHandover st id (jstringify p) now) = true := by
  rw [handoversOk_iff] at h ⊢
  intro x hx
  simp only [upsertHandover, List.mem_append, List.mem_singleton] at hx
  cases hx with
  | inl hmem => exact h x (List.mem_of_mem_filter hmem)
  | inr heq =>
    subst heq
    simp [jparse_jstringify]

theorem rolesOk_insertUser {st : Store} {u : User} (h : rolesOk st = true)
    (hu : u.role = "admin" ∨ u.role = "user") :
    rolesOk (insertUser st u) = true := by
  rw [rolesOk_iff] at h ⊢
  intro x hx
  simp only [insertUser, List.mem_append, List.mem_singleton] at hx
  cases hx with
  | inl hmem => exact h x hmem
  | inr heq =>
    subst heq
    exact hu

theorem rolesOk_filter_users {st : Store} {p : User → Bool} (h : rolesOk st = true) :
    rolesOk (Store.mk (st.users.filter p) st.sessions st.handovers) = true := by
  rw [rolesOk_iff] at h ⊢
  intro x hx
  exact h x (List.mem_of_mem_filter hx)

theorem pg_handle_sessionsOk (f : ErrFlags) (st : Store) (req : Request)
    (fid : String) (now : Nat) (h : sessionsOk st = true) :
    sessionsOk (Pg.handle f st req fid now).2 = true := by
  cases req with
  | login u p =>
    simp only [Pg.handle]
    unfold Pg.login
    split
    · exact h
    · split
      · exact h
      · rename_i usr heq
        split
        · split
          · exact h
          · exact sessionsOk_insertSession h
              (userExists_iff.mpr ⟨usr, List.mem_of_find?_eq_some heq, rfl⟩)
        · exact h
  | logout tok =>
    simp only [Pg.handle]
    unfold Pg.logout
    split
    · exact h
    · cases tok with
      | none => exact h
      | some t => exact sessionsOk_filter_sessions h
  | validate tok =>
    simp only [Pg.handle]
    exact h
  | listUsers tok =>
    simp only [Pg.handle]
    split
    · exact h
    · exact h
  | createUser tok u p n role =>
    simp only [Pg.handle]
    split
    · exact h
    · simp only [Pg.createUserCore]
      repeat' split
      all_goals first
        | exact h
        | exact sessionsOk_insertUser h
  | deleteUser tok u =>
    simp only [Pg.handle]
    split
    · exact h
    · simp only [Pg.deleteUserCore]
      repeat' split
      all_goals first
        | exact h
        | exact sessionsOk_filter_sessions h
        | exact sessionsOk_deleteUserAndSessions h
  | getHandover tok id =>
    simp only [Pg.handle]
    split
    · exact h
    · exact h
  | putHandover tok id payload =>
    simp only [Pg.handle]
    split
    · exact h
    · simp only [Pg.putHandoverCore]
      split
      · exact h
      · exact h
  | listHandovers tok =>
    simp only [Pg.handle]
    split
    · exact h
    · exact h

theorem sq_handle_sessionsOk (f : ErrFlags) (st : Store) (req : Request)
    (fid : String) (now : Nat) (hf2 : f.e2 = false) (h : sessionsOk st = true) :
    sessionsOk (Sq.handle f st req fid now).2 = true := by
  cases req with
  | login u p =>
    simp only [Sq.handle]
    unfold Sq.login
    split
    · exact h
    · split
      · exact h
      · rename_i usr heq
        split
        · split
          · exact h
          · exact sessionsOk_insertSession h
              (userExists_iff.mpr ⟨usr, List.mem_of_find?_eq_some heq, rfl⟩)
        · exact h
  | logout tok =>
    simp only [Sq.handle]
    unfold Sq.logout
    split
    · exact h
    · cases tok with
      | none => exact h
      | some t => exact sessionsOk_filter_sessions h
  | validate tok =>
    simp only [Sq.handle]
    exact h
  | listUsers tok =>
    simp only [Sq.handle]
    split
    · exact h
    · exact h
  | createUser tok u p n role =>
    simp only [Sq.handle]
    split
    · exact h
    · simp only [Sq.createUserCore]
      repeat' split
      all_goals first
        | exact h
        | exact sessionsOk_insertUser h
  | deleteUser tok u =>
    simp only [Sq.handle]
    split
    · exact h
    · simp only [Sq.deleteUserCore, hf2]
      repeat' split
      all_goals first
        | exact h
        | exact sessionsOk_deleteUserAndSessions h
        | simp_all
  | getHandover tok id =>
    simp only [Sq.handle]
    split
    · exact h
    · exact h
  | putHandover tok id payload =>
    simp only [Sq.handle]
    split
    · exact h
    · simp only [Sq.putHandoverCore]
      split
      · exact h
      · exact h
  | listHandovers tok =>
    simp only [Sq.handle]
    split
    · exact h
    · exact h

theorem sq_handle_handoversOk (f : ErrFlags) (st : Store) (req : Request)
    (fid : String) (now : Nat) (h : handoversOk st = true) :
    handoversOk (Sq.handle f st req fid now).2 = true := by
  cases req with
  | login u p =>
    simp only [Sq.handle]
    unfold Sq.login
    repeat' split
    all_goals exact h
  | logout tok =>
    simp only [Sq.handle]
    unfold Sq.logout
    split
    · exact h
    · cases tok with
      | none => exact h
      | some t => exact h
  | validate tok =>
    simp only [Sq.handle]
    exact h
  | listUsers tok =>
    simp only [Sq.handle]
    split
    · exact h
    · exact h
  | createUser tok u p n role =>
    simp only [Sq.handle]
    split
    · exact h
    · simp only [Sq.createUserCore]
      repeat' split
      all_goals exact h
  | deleteUser tok u =>
    simp only [Sq.handle]
    split
    · exact h
    · simp only [Sq.deleteUserCore]
      repeat' split
      all_goals exact h
  | getHandover tok id =>
    simp only [Sq.handle]
    split
    · exact h
    · exact h
  | putHandover tok id payload =>
    simp only [Sq.handle]
    split
    · exact h
    · simp only [Sq.putHandoverCore]
      split
      · exact h
      · exact handoversOk_upsert h
  | listHandovers tok =>
    simp only [Sq.handle]
    split
    · exact h
    · exact h

theorem pg_handle_handoversOk (f : ErrFlags) (st : Store) (req : Request)
    (fid : String) (now : Nat) (h : handoversOk st = true) :
    handoversOk (Pg.handle f st req fid now).2 = true := by
  cases req with
  | login u p =>
    simp only [Pg.handle]
    unfold Pg.login
    repeat' split
    all_goals exact h
  | logout tok =>
    simp only [Pg.handle]
    unfold Pg.logout
    split
    · exact h
    · cases tok with
      | none => exact h
      | some t => exact h
  | validate tok =>
    simp only [Pg.handle]
    exact h
  | listUsers tok =>
    simp only [Pg.handle]
    split
    · exact h
    · exact h
  | createUser tok u p n role =>
    simp only [Pg.handle]
    split
    · exact h
    · simp only [Pg.createUserCore]
      repeat' split
      all_goals exact h
  | deleteUser tok u =>
    simp only [Pg.handle]
    split
    · exact h
    · simp only [Pg.deleteUserCore]
      repeat' split
      all_goals exact h
  | getHandover tok id =>
    simp only [Pg.handle]
    split
    · exact h
    · exact h
  | putHandover tok id payload =>
    simp only [Pg.handle]
    split
    · exact h
    · simp only [Pg.putHandoverCore]
      split
      · exact h
      · exact handoversOk_upsert h
  | listHandovers tok =>
    simp only [Pg.handle]
    split
    · exact h
    · exact h

theorem sqReachable_handoversOk {st : Store} (h : SqReachable st) : handoversOk st = true := by
  induction h with
  | init => rfl
  | step f st req fid now _ ih => exact sq_handle_handoversOk f st req fid now ih

theorem pgReachable_sessionsOk {ap : String} {st : Store} (h : PgReachable ap st) :
    sessionsOk st = true := by
  induction h with
  | init => rfl
  | step f st req fid now _ ih => exact pg_handle_sessionsOk f st req fid now ih

theorem rolesOk_mk_filter {st : Store} {p : User → Bool} (sessions : List Session)
    (handovers : List Handover) (h : rolesOk st = true) :
    rolesOk (Store.mk (st.users.filter p) sessions handovers) = true := by
  rw [rolesOk_iff] at h ⊢
  intro x hx
  exact h x (List.mem_of_mem_filter hx)

/-! ## Claim C9 -/

/-- Counterexample to C9: createUser stores the caller-supplied role string
verbatim, so an admin-authenticated createUser with role "root" leaves a
user record whose role is neither "admin" nor "user". -/
theorem c9_role_invariant_counterexample :
    rolesOk stAdm = true ∧
    rolesOk ((Sq.handle noErr stAdm
      (Request.createUser (some "tok1") (some "eve") (some "pw") (some "Eve") (some "root"))
      "f1" 1).2) = false ∧
    rolesOk ((Pg.handle noErr stAdm
      (Request.createUser (some "tok1") (some "eve") (some "pw") (some "Eve") (some "root"))
      "f1" 1).2) = false := by
  decide

/-- C9 as amended: every operation other than createUser preserves the
two-value role invariant unconditionally, and createUser preserves it
exactly when the supplied role field is "admin", "user", or absent/blank
(in which case it defaults to "user"); with any other supplied role string
the stored record keeps that string verbatim.  Holds for both server
implementations. -/
theorem c9_role_preservation (f : ErrFlags) (st : Store) (req : Request)
    (fid : String) (now : Nat) (h : rolesOk st = true) (hreq : reqRolesOk req = true) :
    rolesOk (Sq.handle f st req fid now).2 = true ∧
    rolesOk (Pg.handle f st req fid now).2 = true := by
  constructor
  · cases req with
    | login u p =>
      simp only [Sq.handle]
      unfold Sq.login
      repeat' split
      all_goals exact h
    | logout tok =>
      simp only [Sq.handle]
      unfold Sq.logout
      split
      · exact h
      · cases tok with
        | none => exact h
        | some t => exact h
    | validate tok =>
      simp only [Sq.handle]
      exact h
    | listUsers tok =>
      simp only [Sq.handle]
      split
      · exact h
      · exact h
    | createUser tok u p n role =>
      have hrole : effRole role = "admin" ∨ effRole role = "user" := by
        simp only [reqRolesOk] at hreq
        simpa using hreq
      simp only [Sq.handle]
      split
      · exact h
      · simp only [Sq.createUserCore]
        repeat' split
        all_goals first
          | exact h
          | exact rolesOk_insertUser h hrole
    | deleteUser tok u =>
      simp only [Sq.handle]
      split
      · exact h
      · simp only [Sq.deleteUserCore]
        repeat' split
        all_goals first
          | exact h
          | exact rolesOk_mk_filter _ _ h
    | getHandover tok id =>
      simp only [Sq.handle]
      split
      · exact h
      · exact h
    | putHandover tok id payload =>
      simp only [Sq.handle]
      split
      · exact h
      · simp only [Sq.putHandoverCore]
        split
        · exact h
        · exact h
    | listHandovers tok =>
      simp only [Sq.handle]
      split
      · exact h
      · exact h
  · cases req with
    | login u p =>
      simp only [Pg.handle]
      unfold Pg.login
      repeat' split
      all_goals exact h
    | logout tok =>
      simp only [Pg.handle]
      unfold Pg.logout
      split
      · exact h
      · cases tok with
        | none => exact h
        | some t => exact h
    | validate tok =>
      simp only [Pg.handle]
      exact h
    | listUsers tok =>
      simp only [Pg.handle]
      split
      · exact h
      · exact h
    | createUser tok u p n role =>
      have hrole : effRole role = "admin" ∨ effRole role = "user" := by
        simp only [reqRolesOk] at hreq
        simpa using hreq
      simp only [Pg.handle]
      split
      · exact h
      · simp only [Pg.createUserCore]
        repeat' split
        all_goals first
          | exact h
          | exact rolesOk_insertUser h hrole
    | deleteUser tok u =>
      simp only [Pg.handle]
      split
      · exact h
      · simp only [Pg.deleteUserCore]
        repeat' split
        all_goals first
          | exact h
          | exact rolesOk_mk_filter _ _ h
    | getHandover tok id =>
      simp only [Pg.handle]
      split
      · exact h
      · exact h
    | putHandover tok id payload =>
      simp only [Pg.handle]
      split
      · exact h
      · simp only [Pg.putHandoverCore]
        split
        · exact h
        · exact h
    | listHandovers tok =>
      simp only [Pg.handle]
      split
      · exact h
      · exact h

/-- Witness for the amended C9: an admin-authenticated createUser with an
in-range role keeps the invariant in both implementations. -/
theorem c9_witness :
    rolesOk ((Sq.handle noErr stAdm
      (Request.createUser (some "tok1") (some "bob") (some "pw") (some "Bob") (some "user"))
      "f1" 1).2) = true ∧
    rolesOk ((Pg.handle noErr stAdm
      (Request.createUser (some "tok1") (some "bob") (some "pw") (some "Bob") (some "user"))
      "f1" 1).2) = true :=
  c9_role_preservation noErr stAdm
    (Request.createUser (some "tok1") (some "bob") (some "pw") (some "Bob") (some "user"))
    "f1" 1 (by decide) (by decide)

/-! ## Claim C7 -/

/-- C7: for a username u other than "admin": when the user row exists,
deleteUser removes the user record and all session rows with that username
(in both implementations, despite their different statement order); when no
user row exists, it fails with 404 User not found and changes nothing — in
the SQLite server on any store, and in the PostgreSQL server on every store
reachable through its API (where the session-delete that precedes the
existence check can match no row, because every session row references an
existing user). -/
theorem c7_delete_user (st : Store) (u ap : String) (hadm : u ≠ "admin") :
    (userExists st u = true →
      Sq.deleteUserCore false false st u =
        (Response.mk 200 Body.ok,
         Store.mk (st.users.filter (fun x => !(x.username == u)))
           (st.sessions.filter (fun s => !(s.username == u))) st.handovers) ∧
      Pg.deleteUserCore false false st u =
        (Response.mk 200 Body.ok,
         Store.mk (st.users.filter (fun x => !(x.username == u)))
           (st.sessions.filter (fun s => !(s.username == u))) st.handovers)) ∧
    (userExists st u = false →
      Sq.deleteUserCore false false st u = (Response.mk 404 (Body.err "User not found"), st)) ∧
    (PgReachable ap st → userExists st u = false →
      Pg.deleteUserCore false false st u = (Response.mk 404 (Body.err "User not found"), st)) := by
  have hadm2 : (u == "admin") = false := beq_eq_false_iff_ne.mpr hadm
  refine ⟨?_, ?_, ?_⟩
  · intro hex
    have hex2 : userExists (deleteSessionsByUsername st u) u = true := hex
    constructor
    · simp [Sq.deleteUserCore, hadm2, hex, deleteUserByUsername, deleteSessionsByUsername]
    · simp [Pg.deleteUserCore, hadm2, hex2, deleteUserByUsername, deleteSessionsByUsername]
      exact hex
  · intro hex
    simp [Sq.deleteUserCore, hadm2, hex]
  · intro hreach hex
    have hs := pgReachable_sessionsOk hreach
    have hex2 : userExists (deleteSessionsByUsername st u) u = false := hex
    have hfix := noSessions_of_noUser hs hex
    simp only [Pg.deleteUserCore, hadm2, Bool.false_eq_true, if_false, hex2]
    simp [deleteSessionsByUsername, hfix]

/-- Witness for C7: deleting the seeded maintenance user removes its user
row and its session row; deleting an unknown user on the reachable seeded
PostgreSQL store returns 404 and leaves the store unchanged. -/
theorem c7_witness :
    Sq.deleteUserCore false false stTwoSessions "maintenance" =
      (Response.mk 200 Body.ok,
       Store.mk [User.mk "admin" (bhash "admin123") "admin" "System Administrator" 0]
         [Session.mk "tokA" "admin" "admin" "System Administrator" 0] []) ∧
    Pg.deleteUserCore false false (pgInit "x") "ghost" =
      (Response.mk 404 (Body.err "User not found"), pgInit "x") :=
  ⟨((c7_delete_user stTwoSessions "maintenance" "x" (by decide)).1 (by decide)).1,
   (c7_delete_user (pgInit "x") "ghost" "x" (by decide)).2.2 PgReachable.init (by decide)⟩

theorem sq_getHandoverCore_not_thrown (e1 : Bool) (st : Store) (id : String)
    (h : handoversOk st = true) : Sq.getHandoverCore e1 st id ≠ Outcome.thrown := by
  unfold Sq.getHandoverCore
  split
  · simp
  · split
    · simp
    · rename_i row hrow
      split
      · simp
      · rename_i hparse
        simp only [findHandoverById] at hrow
        have hmem := List.mem_of_find?_eq_some hrow
        have hsome := handoversOk_iff.mp h row hmem
        rw [hparse] at hsome
        simp at hsome

theorem sq_handle_not_thrown (f : ErrFlags) (st : Store) (req : Request)
    (fid : String) (now : Nat) (h : handoversOk st = true) :
    (Sq.handle f st req fid now).1 ≠ Outcome.thrown := by
  cases req with
  | login u p => simp [Sq.handle]
  | logout tok => simp [Sq.handle]
  | validate tok => simp [Sq.handle]
  | listUsers tok =>
    simp only [Sq.handle]
    split <;> simp
  | createUser tok u p n role =>
    simp only [Sq.handle]
    split <;> simp
  | deleteUser tok u =>
    simp only [Sq.handle]
    split <;> simp
  | getHandover tok id =>
    simp only [Sq.handle]
    split
    · simp
    · exact sq_getHandoverCore_not_thrown f.e1 st id h
  | putHandover tok id payload =>
    simp only [Sq.handle]
    split <;> simp
  | listHandovers tok =>
    simp only [Sq.handle]
    split <;> simp

theorem pg_handle_not_thrown (f : ErrFlags) (st : Store) (req : Request)
    (fid : String) (now : Nat) :
    (Pg.handle f st req fid now).1 ≠ Outcome.thrown := by
  cases req with
  | login u p => simp [Pg.handle]
  | logout tok => simp [Pg.handle]
  | validate tok => simp [Pg.handle]
  | listUsers tok =>
    simp only [Pg.handle]
    split <;> simp
  | createUser tok u p n role =>
    simp only [Pg.handle]
    split <;> simp
  | deleteUser tok u =>
    simp only [Pg.handle]
    split <;> simp
  | getHandover tok id =>
    simp only [Pg.handle]
    split <;> simp
  | putHandover tok id payload =>
    simp only [Pg.handle]
    split <;> simp
  | listHandovers tok =>
    simp only [Pg.handle]
    split <;> simp

/-! ## Claim C10 -/

theorem loginRoute_agrees (e1 e2 : Bool) (st : Store) (u p fid : String) (now : Nat) :
    Sq.loginRoute e1 e2 st (some u) (some p) fid now =
      (Outcome.resp (Sq.login e1 e2 st u p fid now).1, (Sq.login e1 e2 st u p fid now).2) ∧
    Pg.loginRoute e1 e2 st (some u) (some p) fid now =
      (Outcome.resp (Pg.login e1 e2 st u p fid now).1, (Pg.login e1 e2 st u p fid now).2) := by
  constructor
  · simp only [Sq.loginRoute, Sq.login, findUserByOptUsername]
    repeat' split
    all_goals simp_all
  · simp only [Pg.loginRoute, Pg.login, findUserByOptUsername]
    repeat' split
    all_goals simp_all

theorem sq_loginRoute_some_not_thrown (e1 e2 : Bool) (st : Store) (u : Option String)
    (p fid : String) (now : Nat) :
    (Sq.loginRoute e1 e2 st u (some p) fid now).1 ≠ Outcome.thrown := by
  unfold Sq.loginRoute
  repeat' split
  all_goals simp_all

theorem sq_loginRoute_thrown_iff (e1 e2 : Bool) (st : Store) (u p : Option String)
    (fid : String) (now : Nat) :
    (Sq.loginRoute e1 e2 st u p fid now).1 = Outcome.thrown ↔
      e1 = false ∧ p = none ∧ (findUserByOptUsername st u).isSome = true := by
  unfold Sq.loginRoute
  cases e1 with
  | true => simp
  | false =>
    cases hu : findUserByOptUsername st u with
    | none => simp [hu]
    | some user =>
      cases p with
      | none => simp [hu]
      | some q =>
        simp only [hu]
        repeat' split
        all_goals simp

theorem pg_loginRoute_not_thrown (e1 e2 : Bool) (st : Store) (u p : Option String)
    (fid : String) (now : Nat) :
    (Pg.loginRoute e1 e2 st u p fid now).1 ≠ Outcome.thrown := by
  unfold Pg.loginRoute
  repeat' split
  all_goals simp

/-- Counterexample to C10: at the seeded (hence reachable) SQLite store, a
login request naming the existing user admin but carrying no password
field makes the handler end in an uncaught throw — bcrypt.compareSync at
src/server.js:60 throws inside the db.get callback, past the operation
boundary — instead of any structured response; the PostgreSQL server
catches the same throw and answers 500 Login failed. -/
theorem c10_uncaught_throw_counterexample :
    (Sq.loginRoute false false sqInit (some "admin") none "s1" 1).1 = Outcome.thrown ∧
    SqReachable sqInit ∧
    (Pg.loginRoute false false (pgInit "temporaryDefaultPassword") (some "admin") none
        "s1" 1).1 =
      Outcome.resp (Response.mk 500 (Body.err "Login failed")) :=
  ⟨by decide, SqReachable.init, by decide⟩

/-- C10 as amended: every handler terminates producing a success or
structured error response, with exactly one uncaught-throw site.  On every
store reachable through the SQLite server's API, every handler over
present string fields produces a response (in particular getDocument,
whose unguarded JSON.parse can only throw on a data column outside the
serialization image, which no reachable store contains), and the login
route with a present password never throws; but the SQLite login route
throws uncaught precisely when the user lookup succeeds (no store error,
existing username) and the password field is absent.  The PostgreSQL
server's handlers, login route included, never throw on any store, since
their bodies — JSON.parse and bcrypt.compareSync included — run inside
try/catch. -/
theorem c10_no_uncaught_throw :
    (∀ st : Store, SqReachable st →
      ∀ (f : ErrFlags) (req : Request) (fid : String) (now : Nat),
        (Sq.handle f st req fid now).1 ≠ Outcome.thrown) ∧
    (∀ (e1 e2 : Bool) (st : Store) (u : Option String) (p fid : String) (now : Nat),
        (Sq.loginRoute e1 e2 st u (some p) fid now).1 ≠ Outcome.thrown) ∧
    (∀ (e1 e2 : Bool) (st : Store) (u p : Option String) (fid : String) (now : Nat),
        ((Sq.loginRoute e1 e2 st u p fid now).1 = Outcome.thrown ↔
          e1 = false ∧ p = none ∧ (findUserByOptUsername st u).isSome = true)) ∧
    (∀ (e1 e2 : Bool) (st : Store) (u p : Option String) (fid : String) (now : Nat),
        (Pg.loginRoute e1 e2 st u p fid now).1 ≠ Outcome.thrown) ∧
    (∀ (st : Store) (f : ErrFlags) (req : Request) (fid : String) (now : Nat),
        (Pg.handle f st req fid now).1 ≠ Outcome.thrown) := by
  refine ⟨?_, ?_, ?_, ?_, ?_⟩
  · intro st hreach f req fid now
    exact sq_handle_not_thrown f st req fid now (sqReachable_handoversOk hreach)
  · intro e1 e2 st u p fid now
    exact sq_loginRoute_some_not_thrown e1 e2 st u p fid now
  · intro e1 e2 st u p fid now
    exact sq_loginRoute_thrown_iff e1 e2 st u p fid now
  · intro e1 e2 st u p fid now
    exact pg_loginRoute_not_thrown e1 e2 st u p fid now
  · intro st f req fid now
    exact pg_handle_not_thrown f st req fid now

/-- Witness for the amended C10 at the seeded initial store: a concrete
protected read and a concrete present-password login both produce
responses rather than throws. -/
theorem c10_witness :
    (Sq.handle noErr sqInit (Request.getHandover (some "t") "doc1") "f" 1).1 ≠
      Outcome.thrown ∧
    (Sq.loginRoute false false sqInit (some "admin") (some "admin123") "s1" 1).1 ≠
      Outcome.thrown :=
  ⟨c10_no_uncaught_throw.1 sqInit SqReachable.init noErr
     (Request.getHandover (some "t") "doc1") "f" 1,
   c10_no_uncaught_throw.2.1 false false sqInit (some "admin") "admin123" "s1" 1⟩

/-! ## Equivalence of the two servers (no store failures) -/

theorem authenticate_eq (st : Store) (tok : Option String) :
    Sq.authenticate false st tok = Pg.authenticate false st tok := by
  simp [Sq.authenticate, Pg.authenticate]

theorem authenticateAdmin_eq (st : Store) (tok : Option String) :
    Sq.authenticateAdmin false st tok = Pg.authenticateAdmin false st tok := by
  simp [Sq.authenticateAdmin, Pg.authenticateAdmin, authenticate_eq]

theorem deleteUserCore_eq (st : Store) (u : String) (hs : sessionsOk st = true) :
    Sq.deleteUserCore false false st u = Pg.deleteUserCore false false st u := by
  unfold Sq.deleteUserCore Pg.deleteUserCore
  cases hadm : u == "admin" with
  | true => simp [hadm]
  | false =>
    cases hex : userExists st u with
    | true =>
      have hex2 : userExists (deleteSessionsByUsername st u) u = true := hex
      have hcomm : deleteSessionsByUsername (deleteUserByUsername st u) u =
          deleteUserByUsername (deleteSessionsByUsername st u) u := rfl
      simp [hadm, hex, hex2, hcomm]
    | false =>
      have hex2 : userExists (deleteSessionsByUsername st u) u = false := hex
      have hid : deleteSessionsByUsername st u = st := by
        simp [deleteSessionsByUsername, noSessions_of_noUser hs hex]
      simp [hadm, hex, hex2, hid]

theorem getHandoverCore_eq (st : Store) (id : String) (hh : handoversOk st = true) :
    Sq.getHandoverCore false st id = Outcome.resp (Pg.getHandoverCore false st id) := by
  unfold Sq.getHandoverCore Pg.getHandoverCore
  cases hrow : findHandoverById st id with
  | none => simp [hrow]
  | some row =>
    have hsome : (jparse row.data).isSome = true :=
      handoversOk_iff.mp hh row
        (List.mem_of_find?_eq_some (by simpa [findHandoverById] using hrow))
    cases hp : jparse row.data with
    | none =>
      rw [hp] at hsome
      simp at hsome
    | some payload => simp [hrow, hp]

theorem handle_eq_step (st : Store) (req : Request) (fid : String) (now : Nat)
    (hs : sessionsOk st = true) (hh : handoversOk st = true)
    (hf : freshForReq st req fid = true) :
    Sq.handle noErr st req fid now = Pg.handle noErr st req fid now := by
  cases req with
  | login u p =>
    have hf2 : sessionIdExists st fid = false := by simpa [freshForReq] using hf
    cases hu : findUserByUsername st u with
    | none => simp [Sq.handle, Pg.handle, noErr, Sq.login, Pg.login, hu]
    | some usr =>
      cases hv : bverify p usr.passwordHash <;>
        simp [Sq.handle, Pg.handle, noErr, Sq.login, Pg.login, hu, hv, hf2]
  | logout tok => simp [Sq.handle, Pg.handle, noErr, Sq.logout, Pg.logout]
  | validate tok => simp [Sq.handle, Pg.handle, noErr, Sq.validate, Pg.validate]
  | listUsers tok =>
    simp only [Sq.handle, Pg.handle, noErr, authenticateAdmin_eq]
    cases hA : Pg.authenticateAdmin false st tok with
    | fail r => simp [hA]
    | ok a b c => simp [hA, Sq.listUsersCore, Pg.listUsersCore]
  | createUser tok u p n role =>
    simp only [Sq.handle, Pg.handle, noErr, authenticateAdmin_eq]
    cases hA : Pg.authenticateAdmin false st tok with
    | fail r => simp [hA]
    | ok a b c => simp [hA, Sq.createUserCore, Pg.createUserCore]
  | deleteUser tok u =>
    simp only [Sq.handle, Pg.handle, noErr, authenticateAdmin_eq]
    cases hA : Pg.authenticateAdmin false st tok with
    | fail r => simp [hA]
    | ok a b c => simp [hA, deleteUserCore_eq st u hs]
  | getHandover tok id =>
    simp only [Sq.handle, Pg.handle, noErr, authenticate_eq]
    cases hA : Pg.authenticate false st tok with
    | fail r => simp [hA]
    | ok a b c => simp [hA, getHandoverCore_eq st id hh]
  | putHandover tok id payload =>
    simp only [Sq.handle, Pg.handle, noErr, authenticate_eq]
    cases hA : Pg.authenticate false st tok with
    | fail r => simp [hA]
    | ok a b c => simp [hA, Sq.putHandoverCore, Pg.putHandoverCore]
  | listHandovers tok =>
    simp only [Sq.handle, Pg.handle, noErr, authenticate_eq]
    cases hA : Pg.authenticate false st tok with
    | fail r => simp [hA]
    | ok a b c => simp [hA, Sq.listHandoversCore, Pg.listHandoversCore]

/-! ## Claim C8 -/

/-- Counterexample to C8: the two servers seed different initial stores
(SQLite seeds admin/admin123 and maintenance/shift2025; PostgreSQL seeds
only admin with an environment-supplied password), so the one-request
sequence login(maintenance, shift2025) — with no store call failing —
succeeds with 200 on the SQLite server and fails with 401 on the
PostgreSQL server: neither status class nor body agree. -/
theorem c8_seeded_divergence_counterexample :
    (sqRun sqInit [(Request.login "maintenance" "shift2025", "s1", 1)]).1 =
      [Outcome.resp (Response.mk 200
        (Body.loginOk "s1" "maintenance" "user" "Maintenance Team"))] ∧
    (pgRun (pgInit "temporaryDefaultPassword")
        [(Request.login "maintenance" "shift2025", "s1", 1)]).1 =
      [Outcome.resp (Response.mk 401 (Body.err "Invalid username or password"))] := by
  decide

/-- C8 as amended: started from any COMMON store state whose sessions all
reference existing users and whose stored payloads are well-formed, and
fed the same requests with the same generated tokens and timestamps, with
no store call failing (in particular no token collision), the two servers
produce identical outcomes and identical successor stores for every
request sequence.  From process start they are not equivalent, because the
seeded initial stores differ. -/
theorem c8_observational_equivalence (st : Store)
    (steps : List (Request × String × Nat))
    (hs : sessionsOk st = true) (hh : handoversOk st = true)
    (hf : freshRun st steps = true) :
    sqRun st steps = pgRun st steps := by
  induction steps generalizing st with
  | nil => rfl
  | cons hd tl ih =>
    obtain ⟨req, fid, now⟩ := hd
    simp only [freshRun, Bool.and_eq_true] at hf
    have hstep := handle_eq_step st req fid now hs hh hf.1
    have hs2 := sq_handle_sessionsOk noErr st req fid now rfl hs
    have hh2 := sq_handle_handoversOk noErr st req fid now hh
    simp only [sqRun, pgRun]
    rw [← hstep, ih (Sq.handle noErr st req fid now).2 hs2 hh2 hf.2]

/-- Witness for the amended C8: a concrete two-request run from a common
invariant-satisfying store produces identical outputs on both servers. -/
theorem c8_witness :
    sqRun stAdm
      [(Request.login "admin" "admin123", "s7", 2), (Request.validate (some "s7"), "x", 3)] =
    pgRun stAdm
      [(Request.login "admin" "admin123", "s7", 2), (Request.validate (some "s7"), "x", 3)] :=
  c8_observational_equivalence stAdm
    [(Request.login "admin" "admin123", "s7", 2), (Request.validate (some "s7"), "x", 3)]
    (by decide) (by decide) (by decide)
